import Mathlib

/-!
Verification of the ringbahn core against its design specification.

The definitions below are shallow embeddings of the corresponding Rust
source items; each definition's doc comment names the file and lines it
was translated from.  Machine integers are modelled as `Nat`/`Int` with
explicit `% 2 ^ w` where wrap-around matters.
-/

namespace Ringbahn

/-- The `io::Result<u32>` carried by a completion: `ok` holds the kernel's
non-negative return value, `error` holds the raw OS error code stored in
the `io::Error` (`io::Error::from_raw_os_error`). -/
inductive Res
  | ok (val : Nat)
  | error (code : Int)
  deriving DecidableEq, Repr

/-! ## Completion cell (src/ring/completion.rs, src/completion.rs)

Both implementations realise the same guarded state machine over
{Submitted, Completed, Cancelled}; the `Mutex` of `src/ring/completion.rs`
and the CAS spin-lock (`UPDATING` tag) of `src/completion.rs` make each
operation atomic, so an interleaving of the three parties is a sequence of
whole operations.  The waker payload of `Submitted` is irrelevant to the
claims below and is abstracted away; the transient `Empty` state exists
only inside a locked critical section and therefore does not appear
between operations. -/

inductive CellState
  | submitted
  | completed (r : Res)
  | cancelled
  | freed
  deriving DecidableEq, Repr

/-- What one cell operation did: the state it left behind, whether it ran
`drop(ManuallyDrop::into_inner(self.state))` / `drop(Box::from_raw(..))`
(i.e. deallocated the heap cell), the arguments passed to the stored
cancellation's handler function (`none` models the `None` result of the
`Drop` impl, `some r` models a call with `Some(result)`), whether a waker
was woken, and the result returned to the caller of `check`. -/
structure StepResult where
  state : CellState
  dealloc : Bool
  handlerArgs : List (Option Res)
  woke : Bool
  returned : Option Res
  deriving DecidableEq, Repr

namespace CompletionCell

/-- `Completion::check` (src/ring/completion.rs lines 52-72): on
`Submitted` the waker is kept or replaced and `Err(self)` is returned; on
`Completed(result)` the state box is deallocated and `Ok(result)` is
returned; any other state is `unreachable!()`. -/
def check : CellState → Option StepResult
  | .submitted => some ⟨.submitted, false, [], false, none⟩
  | .completed r => some ⟨.freed, true, [], false, some r⟩
  | _ => none

/-- `Completion::cancel` (src/ring/completion.rs lines 76-90): on
`Submitted` the callback is stored and the state becomes `Cancelled`; on
`Completed` the callback is dropped (its handler runs with `None`, by the
`Drop` impl of `Cancellation`, src/ring/cancellation.rs lines 223-227) and
the state box is deallocated; any other state is `unreachable!()`. -/
def cancel : CellState → Option StepResult
  | .submitted => some ⟨.cancelled, false, [], false, none⟩
  | .completed _ => some ⟨.freed, true, [none], false, none⟩
  | _ => none

/-- `Completion::complete` (src/ring/completion.rs lines 92-106): on
`Submitted` the state becomes `Completed(result)` and the waker is woken;
on `Cancelled` the stored callback's `handle(result)` runs (which invokes
the handler with `Some result` and then, dropping `self`, with `None`;
see `Cancellation.handleArgs` below) and the state box is deallocated;
any other state is `unreachable!()`. -/
def complete (r : Res) : CellState → Option StepResult
  | .submitted => some ⟨.completed r, false, [], true, none⟩
  | .cancelled => some ⟨.freed, true, [some r, none], false, none⟩
  | _ => none

end CompletionCell

/-- One operation racing on a single cell: a `check` or `cancel` from the
owner side, or a completion-dispatch `complete r` from the CQ-reader. -/
inductive CellOp
  | check
  | cancel
  | dispatch (r : Res)
  deriving DecidableEq, Repr

/-- Execute one operation on the cell; `none` is an `unreachable!()` arm,
which the code asserts can never run. -/
def cellStep (s : CellState) : CellOp → Option StepResult
  | .check => CompletionCell.check s
  | .cancel => CompletionCell.cancel s
  | .dispatch r => CompletionCell.complete r s

/-- Run an interleaving of operations from a starting state, counting how
many of them deallocated the cell. -/
def runCell : CellState → List CellOp → Option (CellState × Nat)
  | s, [] => some (s, 0)
  | s, op :: ops =>
    (cellStep s op).bind fun res =>
      (runCell res.state ops).map fun p => (p.1, p.2 + (if res.dealloc then 1 else 0))

/-- The three terminal transitions named by the specification's table:
`check` finding `Completed`, `cancel` finding `Completed`, and dispatch
finding `Cancelled`. -/
def isTerminalTransition : CellState → CellOp → Bool
  | .completed _, .check => true
  | .completed _, .cancel => true
  | .cancelled, .dispatch _ => true
  | _, _ => false

/-! ## Cancellation (src/ring/cancellation.rs) -/

namespace Cancellation

/-- `impl Drop for Cancellation` (src/ring/cancellation.rs lines 223-227):
dropping a cancellation invokes its handler once, with `None`. -/
def dropArgs : List (Option Res) := [none]

/-- `Cancellation::handle` (src/ring/cancellation.rs lines 185-188): the
body invokes the handler with `Some(result)`.  `handle` takes `self` by
value, `Cancellation` implements `Drop`, and the body contains no
`mem::forget(self)`, so when the method returns `self` is dropped and the
`Drop` impl invokes the handler a second time, with `None`.  The list
records every handler invocation caused by one call of `handle`, in
order. -/
def handleArgs (r : Res) : List (Option Res) := [some r] ++ dropArgs

end Cancellation

namespace RawFdCancellation

/-- `RawFdCancellation::new` (src/ring/cancellation.rs lines 112-118):
`fd as u64 | flags` where `flags` has bit 32 set iff `pending_close`.
The `as u64` cast of the `i32` fd is two's-complement:
`(fd % 2^64).toNat`. -/
def new (fd : Int) (pendingClose : Bool) : Nat :=
  (fd % 2 ^ 64).toNat ||| (if pendingClose then 2 ^ 32 else 0)

/-- The `data as RawFd` cast in `handle`: reinterpret the low 32 bits of
the u64 as an i32. -/
def toSigned32 (n : Nat) : Int :=
  if n % 2 ^ 32 < 2 ^ 31 then ((n % 2 ^ 32 : Nat) : Int)
  else ((n % 2 ^ 32 : Nat) : Int) - 2 ^ 32

/-- `<RawFdCancellation as Cancel>::handle` (src/ring/cancellation.rs
lines 125-146), as the list of fds passed to `libc::close`: with
`pending_close` set, a `None` result or a kernel success closes nothing
(the successful IORING_OP_CLOSE already consumed the fd), a kernel
failure closes (reclaims) the fd; without `pending_close` the fd is
closed unconditionally. -/
def handle (data : Nat) (result : Option Res) : List Int :=
  let fd := toSigned32 data
  if data &&& 2 ^ 32 ≠ 0 then
    match result with
    | none => []
    | some (.ok _) => []
    | some (.error _) => [fd]
  else [fd]

/-- The fds closed over a full completion dispatch of a cancelled
operation: `complete` (src/ring/completion.rs line 100) calls
`Cancellation::handle(result)`, whose handler invocations are
`Cancellation.handleArgs result`. -/
def closedOnDispatch (data : Nat) (r : Res) : List Int :=
  (Cancellation.handleArgs r).flatMap (handle data)

end RawFdCancellation

/-! ## Completion dispatch entry points (src/ring/completion.rs,
src/completion.rs) -/

/-- liburing's timeout-marker user-data sentinel, `(u64)-1`. -/
def LIBURING_UDATA_TIMEOUT : Nat := 2 ^ 64 - 1

/-- What dispatch does with one CQE: drop it on the floor, or interpret
its user-data as the address of a completion cell (read, transition,
possibly wake or free it). -/
inductive DispatchAction
  | discard
  | useCell (addr : Nat)
  deriving DecidableEq, Repr

/-- `complete` (src/ring/completion.rs lines 109-124): the timeout marker
is only `debug_assert!`ed against ("this is just to catch bugs in iou");
execution otherwise continues, so only null user-data is discarded and
every other value — the timeout marker included — is cast to a cell
pointer and used. -/
def ringDispatch (userData : Nat) : DispatchAction :=
  if userData = 0 then .discard else .useCell userData

/-- `complete` (src/completion.rs lines 211-249):
`if cqe.is_timeout() { return; }` (iou reports `is_timeout` exactly when
user_data equals LIBURING_UDATA_TIMEOUT), then a null check. -/
def driverDispatch (userData : Nat) : DispatchAction :=
  if userData = LIBURING_UDATA_TIMEOUT then .discard
  else if userData = 0 then .discard
  else .useCell userData

/-! ## Hard-linked submission segments (src/kernel/hard_linked.rs,
src/kernel/submission_queue.rs) -/

def IOSQE_IO_LINK : Nat := 4

def IOSQE_IO_HARDLINK : Nat := 8

/-- `SQE::set_flag` (src/kernel/sqe.rs lines 61-63):
`self.inner.flags &= flag` — an AND, which cannot set a bit that is
clear (the sibling `unset_flag` is `flags &= !flag`, so the intended
`|=` here is plainly a slip). -/
def SQE.set_flag (flags flag : Nat) : Nat := flags &&& flag

namespace HardLinked

/-- `<HardLinked as Iterator>::next` (src/kernel/hard_linked.rs lines
17-27): for a segment with `remaining` entries left, `is_final` is
computed as `remaining() > 1` *before* `consume()` decrements; listed
here per yielded entry, in order. -/
def isFinalFlags : Nat → List Bool
  | 0 => []
  | n + 1 => decide (n + 1 > 1) :: isFinalFlags n

/-- The flags word of each yielded entry after the iteration: the
liburing prep helpers (`prep_nop` inside `consume`, the event's
`prep_*`) zero the entry's flags field, and `impl Drop for HardLinkedSQE`
(src/kernel/hard_linked.rs lines 47-53) then runs
`set_flag(IOSQE_IO_HARDLINK)` on those zeroed flags iff `!is_final`. -/
def entryFlags (n : Nat) : List Nat :=
  (isFinalFlags n).map (fun f => if f then 0 else SQE.set_flag 0 IOSQE_IO_HARDLINK)

/-- Whether IOSQE_IO_HARDLINK ends up set on each yielded entry of a
segment of `n`. -/
def hardlinkSet (n : Nat) : List Bool :=
  (entryFlags n).map (fun flags => decide (flags &&& IOSQE_IO_HARDLINK ≠ 0))

end HardLinked

namespace SubmissionSegment

/-- The mask of `SubmissionSegment::finish` (src/kernel/submission_queue.rs
lines 90-101): `flags &= !(IOSQE_IO_LINK & IOSQE_IO_HARDLINK)`; `!x` on a
u8 is `255 ^^^ x`. -/
def finishMask : Nat := 255 ^^^ (IOSQE_IO_LINK &&& IOSQE_IO_HARDLINK)

/-- The flags of the final entry after `finish` applies its mask. -/
def finishFlags (flags : Nat) : Nat := flags &&& finishMask

end SubmissionSegment

/-! ## Result conversion in `check` (src/driver/completion.rs,
src/completion.rs) -/

namespace Driver

/-- `Completion::check` result conversion (src/driver/completion.rs lines
46-57): `result >= 0` → `Ok(result as usize)`; negative →
`Err(io::Error::from_raw_os_error(-result))`. -/
def checkResult (r : Int) : Res :=
  if 0 ≤ r then .ok r.toNat else .error (-r)

end Driver

namespace Completion

/-- `Completion::check` result conversion (src/completion.rs lines
119-127): `result >= 0` → `Ok(result as usize)`; negative →
`Err(io::Error::from_raw_os_error(result))` — without negation, so the
stored OS error code is the raw (negative) result itself. -/
def checkResult (r : Int) : Res :=
  if 0 ≤ r then .ok r.toNat else .error r

end Completion

/-! ## Submission state machine (src/submission.rs) -/

inductive SubState
  | waiting
  | prepared
  | submitted
  | complete
  | lost
  deriving DecidableEq, Repr

/-- The arm of `<Submission as Future>::poll` (src/submission.rs lines
98-138) selected by each state. -/
inductive PollArm
  | tryPrepareThenSubmit
  | tryCompleteThenSubmit
  | tryCompleteOnly
  | panicCompleted
  | panicLost
  deriving DecidableEq, Repr

/-- Whether a poll arm panics rather than making progress. -/
def PollArm.panics : PollArm → Bool
  | .panicCompleted => true
  | .panicLost => true
  | _ => false

namespace Submission

/-- The `match self.state` dispatch of `<Submission as Future>::poll`
(src/submission.rs lines 98-138). -/
def pollArm : SubState → PollArm
  | .waiting => .tryPrepareThenSubmit
  | .prepared => .tryCompleteThenSubmit
  | .submitted => .tryCompleteOnly
  | .complete => .panicCompleted
  | .lost => .panicLost

/-- The actions of `prepare` (src/submission.rs lines 154-186), in source
order: install the SubmissionCleaner guard, let the event fill the SQE,
set `*state = State::Lost`, create the completion cell, write its address
into the SQE's user_data, forget the guard. -/
inductive PrepAction
  | installGuard
  | fillSQE
  | setStateLost
  | createCompletion
  | writeUserData
  | forgetGuard
  deriving DecidableEq, BEq, Repr

def prepareActions : List PrepAction :=
  [.installGuard, .fillSQE, .setStateLost, .createCompletion,
   .writeUserData, .forgetGuard]

/-- `Submission::try_prepare` (src/submission.rs lines 47-58): the
driver's `poll_prepare` invokes the prep callback (which leaves the state
at `Lost`); only if the driver hands the completion token back
(`Poll::Ready`) is the state then overwritten with `Prepared`.  Arguments:
whether the prep callback was invoked, and whether the token was
returned. -/
def tryPrepareState (prepFnInvoked tokenReturned : Bool) : SubState :=
  let s := if prepFnInvoked then SubState.lost else SubState.waiting
  if tokenReturned then SubState.prepared else s

end Submission

/-! ## The SQE panic guard (src/submission.rs lines 163-174,
src/ring/engine.rs lines 253-264) -/

/-- The kernel-visible part of one submission queue entry that the guard
touches: the opcode and the user-data word. -/
structure SQE where
  opcode : Nat
  userData : Nat
  deriving DecidableEq, Repr

def IORING_OP_NOP : Nat := 0

/-- `SubmissionCleaner::drop` (src/submission.rs lines 163-174,
src/ring/engine.rs lines 253-264): `prep_nop()` then `set_user_data(0)`,
regardless of the entry's current contents. -/
def SubmissionCleaner.drop (_ : SQE) : SQE :=
  { opcode := IORING_OP_NOP, userData := 0 }

/-- `prepare` (src/submission.rs lines 154-186) around the event's fill:
`fill sqe = .error part` models `Event::prepare` panicking after leaving
the entry in the partial state `part`; the guard's `Drop` then runs during
unwinding.  On success (`.ok filled`) the completion address is written as
user-data and the guard is forgotten (`mem::forget(sqe)`). -/
def guardedPrepare (fill : SQE → Except SQE SQE) (sqe : SQE) (addr : Nat) : SQE :=
  match fill sqe with
  | .error part => SubmissionCleaner.drop part
  | .ok filled => { filled with userData := addr }

/-! ## Buffer cursors (src/buf/mod.rs, src/ring.rs) -/

namespace Buffer

/-- `Buffer::consume` (src/buf/mod.rs lines 43-45, and identically for
the `consumed`/`read` cursor pair in src/ring.rs lines 352-354):
`self.pos = cmp::min(self.pos + amt as u32, self.cap)`.  `pos` and `cap`
are u32 values; `amt as u32` truncates the usize amount, and the u32
addition wraps (release-build semantics; a debug build would panic on
overflow, which is just as far from the claimed saturation). -/
def consume (pos cap amt : Nat) : Nat :=
  min ((pos + amt % 2 ^ 32) % 2 ^ 32) cap

end Buffer

/-! ## Theorems -/

theorem cellStep_freed (op : CellOp) : cellStep .freed op = none := by
  cases op <;> rfl

theorem cellStep_dealloc_iff_freed {s : CellState} {op : CellOp} {res : StepResult}
    (h : cellStep s op = some res) : res.dealloc = true ↔ res.state = .freed := by
  cases s <;> cases op <;>
    simp [cellStep, CompletionCell.check, CompletionCell.cancel,
      CompletionCell.complete] at h <;>
    subst h <;> simp

theorem cellStep_dealloc_eq_terminal {s : CellState} {op : CellOp} {res : StepResult}
    (h : cellStep s op = some res) : res.dealloc = isTerminalTransition s op := by
  cases s <;> cases op <;>
    simp [cellStep, CompletionCell.check, CompletionCell.cancel,
      CompletionCell.complete] at h <;>
    subst h <;> simp [isTerminalTransition]

theorem runCell_freed {tr : List CellOp} {p : CellState × Nat}
    (h : runCell .freed tr = some p) : p = (.freed, 0) := by
  cases tr with
  | nil =>
    simp only [runCell, Option.some.injEq] at h
    exact h.symm
  | cons op ops => simp [runCell, cellStep_freed] at h

theorem runCell_dealloc_count (tr : List CellOp) :
    ∀ s sf d, s ≠ .freed → runCell s tr = some (sf, d) →
      d = if sf = .freed then 1 else 0 := by
  induction tr with
  | nil =>
    intro s sf d hs h
    simp only [runCell, Option.some.injEq, Prod.mk.injEq] at h
    obtain ⟨rfl, rfl⟩ := h
    simp [hs]
  | cons op ops ih =>
    intro s sf d hs h
    simp only [runCell, Option.bind_eq_some, Option.map_eq_some'] at h
    obtain ⟨res, hstep, ⟨sf', d'⟩, hrun, hpd⟩ := h
    simp only [Prod.mk.injEq] at hpd
    obtain ⟨rfl, rfl⟩ := hpd
    by_cases hd : res.dealloc = true
    · have hfreed : res.state = .freed := (cellStep_dealloc_iff_freed hstep).mp hd
      rw [hfreed] at hrun
      have hp := runCell_freed hrun
      simp only [Prod.mk.injEq] at hp
      obtain ⟨rfl, rfl⟩ := hp
      simp [hd]
    · have hnf : res.state ≠ .freed := fun hf =>
        hd ((cellStep_dealloc_iff_freed hstep).mpr hf)
      have hcount := ih res.state sf' d' hnf hrun
      simp only [Bool.not_eq_true] at hd
      simp [hd, hcount]

/-- C1: the claim says the handler of every `Cancellation` runs exactly
once — once with no result on an unused drop, or once with the kernel's
result when dispatch calls `handle(result)`.  The drop path does invoke
it exactly once, but `Cancellation::handle` invokes it twice: once with
`Some(result)` in the body and once more with `None` when `self` (which
implements `Drop` and is not forgotten) is dropped at the end of the
method — a double invocation, and for handlers such as `Box<T>`'s a
double free. -/
theorem cancellation_handle_runs_handler_twice :
    Cancellation.handleArgs (.ok 0) = [some (.ok 0), none]
    ∧ (Cancellation.handleArgs (.ok 0)).length = 2
    ∧ Cancellation.dropArgs.length = 1 :=
  ⟨rfl, rfl, rfl⟩

/-- C2: over every interleaving of `check`, `cancel` and dispatch on one
cell (every operation sequence in which no `unreachable!()` arm fires),
the number of deallocations is at most one and is exactly one precisely
when the cell reached its freed form; moreover a step deallocates exactly
when it is one of the three terminal transitions — `check` finding
`Completed`, `cancel` finding `Completed`, dispatch finding `Cancelled` —
and a step that leaves the cell in `Submitted`, `Cancelled` or `Completed`
does not deallocate. -/
theorem completion_cell_exactly_one_dealloc
    (tr : List CellOp) (sf : CellState) (d : Nat)
    (h : runCell .submitted tr = some (sf, d))
    (s : CellState) (op : CellOp) (res : StepResult)
    (hstep : cellStep s op = some res) :
    (d ≤ 1 ∧ (d = 1 ↔ sf = .freed))
    ∧ res.dealloc = isTerminalTransition s op
    ∧ (res.dealloc = false ↔ res.state ≠ .freed) := by
  have hcount := runCell_dealloc_count tr .submitted sf d (by simp) h
  refine ⟨?_, cellStep_dealloc_eq_terminal hstep, ?_⟩
  · subst hcount
    by_cases hf : sf = CellState.freed <;> simp [hf]
  · have hiff := cellStep_dealloc_iff_freed hstep
    rw [ne_eq, ← hiff]
    simp

theorem completion_cell_exactly_one_dealloc_witness :
    ((1 : Nat) ≤ 1 ∧ ((1 : Nat) = 1 ↔ CellState.freed = CellState.freed))
    ∧ (StepResult.mk .freed true [] false (some (.ok 3))).dealloc
        = isTerminalTransition (.completed (.ok 3)) .check
    ∧ ((StepResult.mk .freed true [] false (some (.ok 3))).dealloc = false
        ↔ (StepResult.mk .freed true [] false (some (.ok 3))).state ≠ .freed) :=
  completion_cell_exactly_one_dealloc
    [.check, .dispatch (.ok 3), .check] .freed 1 (by decide)
    (.completed (.ok 3)) .check (StepResult.mk .freed true [] false (some (.ok 3)))
    (by decide)

/-- C3, counterexample: a CQE whose user-data is the kernel's timeout
marker is *not* discarded by the dispatcher of src/ring/completion.rs —
only null is checked there (the marker is merely debug_assert!ed), so the
sentinel is interpreted as a completion-cell address. -/
theorem ring_dispatch_timeout_not_discarded :
    ringDispatch LIBURING_UDATA_TIMEOUT = .useCell LIBURING_UDATA_TIMEOUT
    ∧ ringDispatch LIBURING_UDATA_TIMEOUT ≠ .discard := by decide

/-- C3, amended: null user-data entries are discarded by both
dispatchers without touching any cell; the timeout marker is discarded by
the src/completion.rs dispatcher, while the src/ring/completion.rs
dispatcher only debug-asserts that the marker never occurs and otherwise
treats every non-null user-data value — the marker included — as a cell
address. -/
theorem dispatch_discards_null_and_timeout_amended (u : Nat) (hu : u ≠ 0) :
    driverDispatch 0 = .discard
    ∧ driverDispatch LIBURING_UDATA_TIMEOUT = .discard
    ∧ ringDispatch 0 = .discard
    ∧ ringDispatch u = .useCell u := by
  refine ⟨by decide, by decide, by decide, ?_⟩
  simp [ringDispatch, hu]

theorem dispatch_discards_null_and_timeout_amended_witness :
    driverDispatch 0 = .discard
    ∧ driverDispatch LIBURING_UDATA_TIMEOUT = .discard
    ∧ ringDispatch 0 = .discard
    ∧ ringDispatch LIBURING_UDATA_TIMEOUT = .useCell LIBURING_UDATA_TIMEOUT :=
  dispatch_discards_null_and_timeout_amended LIBURING_UDATA_TIMEOUT (by decide)

/-- C4: the code violates the claim twice over.  For a reservation of
n = 2 entries emitted through `SubmissionSegment::hard_linked`:
`is_final` is computed as `remaining() > 1` — inverted, `[true, false]`
for the two entries, so the Drop impl attempts to flag the *final* entry
instead of the cancel entry — and `SQE::set_flag` is `flags &= flag`, an
AND that cannot set a bit on the zeroed flags the prep helpers leave
behind.  The per-entry flag words are therefore `[0, 0]`: no entry of
the chain carries IOSQE_IO_HARDLINK — in particular not the first
(cancel) entry, which the claim requires to carry it — so nothing
serializes the cancel before the operation that follows.  `finish`'s
mask `!(IOSQE_IO_LINK & IOSQE_IO_HARDLINK)` is `!0 = 0xff` and clears
nothing either way. -/
theorem hard_linked_cancel_entry_never_flagged :
    HardLinked.isFinalFlags 2 = [true, false]
    ∧ SQE.set_flag 0 IOSQE_IO_HARDLINK = 0
    ∧ HardLinked.entryFlags 2 = [0, 0]
    ∧ HardLinked.hardlinkSet 2 = [false, false]
    ∧ HardLinked.hardlinkSet 2 ≠ [true, false]
    ∧ SubmissionSegment.finishMask = 255
    ∧ SubmissionSegment.finishFlags IOSQE_IO_HARDLINK = IOSQE_IO_HARDLINK := by
  decide

/-- C5: for a negative raw result r the task is meant to observe an error
whose OS error code is −r (the positive errno).  The conversion in
src/driver/completion.rs does exactly that, but the one in
src/completion.rs passes r to `from_raw_os_error` unnegated, so at r = −2
the stored OS error code is −2, not errno 2.  Non-negative results are
converted to `Ok` by both. -/
theorem check_error_code_not_negated :
    Driver.checkResult (-2) = .error 2
    ∧ Completion.checkResult (-2) = .error (-2)
    ∧ Completion.checkResult (-2) ≠ .error 2
    ∧ Driver.checkResult 5 = .ok 5
    ∧ Completion.checkResult 5 = .ok 5 := by decide

/-- C6, counterexample: `cancel` on a cell in state `Completed(Ok 7)`
drops the cancellation payload, so its handler is invoked with `None` —
the kernel's result `Ok 7` is discarded, not handed to the handler as the
claim states. -/
theorem cancel_on_completed_handler_gets_no_result :
    (cellStep (.completed (.ok 7)) .cancel).map StepResult.handlerArgs = some [none]
    ∧ (cellStep (.completed (.ok 7)) .cancel).map StepResult.handlerArgs
        ≠ some [some (.ok 7)] := by decide

/-- C6, amended: if `cancel(c)` is executed on a cell in state
`Completed(r)`, the payload c is dropped — its handler is invoked once
with no result, the result r being discarded — and the cell is
deallocated in that same call. -/
theorem cancel_on_completed_drops_payload_amended (r : Res) :
    CompletionCell.cancel (.completed r)
      = some ⟨.freed, true, [none], false, none⟩ := rfl

theorem lor_two_pow_eq_add {a : Nat} (h : a < 2 ^ 32) :
    a ||| 2 ^ 32 = a + 2 ^ 32 := by
  have h1 := (Nat.mul_add_lt_is_or h 1).symm
  rw [Nat.mul_one] at h1
  rw [Nat.lor_comm] at h1
  rw [h1, Nat.add_comm]

theorem rawFd_new_pending {fd : Nat} (h : fd < 2 ^ 31) :
    RawFdCancellation.new (fd : Int) true = fd + 2 ^ 32 := by
  have h64 : ((fd : Int) % 2 ^ 64).toNat = fd := by omega
  have h32 : fd < 2 ^ 32 := by omega
  show ((fd : Int) % 2 ^ 64).toNat ||| 2 ^ 32 = fd + 2 ^ 32
  rw [h64, lor_two_pow_eq_add h32]

theorem toSigned32_add_two_pow {fd : Nat} (h : fd < 2 ^ 31) :
    RawFdCancellation.toSigned32 (fd + 2 ^ 32) = (fd : Int) := by
  have hmod : (fd + 2 ^ 32) % 2 ^ 32 = fd := by omega
  unfold RawFdCancellation.toSigned32
  rw [hmod]
  rw [if_pos h]

theorem rawFd_handle_pending (data : Nat) (hbit : data &&& 2 ^ 32 ≠ 0)
    (arg : Option Res) :
    RawFdCancellation.handle data arg
      = match arg with
        | some (.error _) => [RawFdCancellation.toSigned32 data]
        | _ => [] := by
  unfold RawFdCancellation.handle
  rw [if_pos hbit]
  cases arg with
  | none => rfl
  | some r => cases r <;> rfl

theorem and_bit32_add_two_pow (fd : Nat) (h : fd < 2 ^ 32) :
    (fd + 2 ^ 32) &&& 2 ^ 32 ≠ 0 := by
  have ht : (fd + 2 ^ 32).testBit 32 = true := by
    rw [Nat.testBit_to_div_mod]
    simp only [decide_eq_true_eq]
    omega
  rw [Nat.and_two_pow, ht]
  norm_num

/-- C7: for a cancellation guarding an in-flight close of fd (built with
`pending_close` set), the full dispatch path — `Cancellation::handle(r)`,
i.e. a handler call with `Some r` followed by the `None` call from the
drop of `self` — closes (reclaims) the fd exactly when the kernel
reported failure, and closes nothing when the kernel reported success,
the fd having been consumed by the successful close. -/
theorem pending_close_reclaims_fd_iff_failure
    (fd : Nat) (hfd : fd < 2 ^ 31) (r : Res) :
    RawFdCancellation.closedOnDispatch (RawFdCancellation.new (fd : Int) true) r
      = match r with
        | .error _ => [(fd : Int)]
        | .ok _ => [] := by
  rw [rawFd_new_pending hfd]
  have hbit : (fd + 2 ^ 32) &&& 2 ^ 32 ≠ 0 := and_bit32_add_two_pow fd (by omega)
  show RawFdCancellation.handle (fd + 2 ^ 32) (some r)
      ++ (RawFdCancellation.handle (fd + 2 ^ 32) none ++ []) = _
  rw [rawFd_handle_pending (fd + 2 ^ 32) hbit (some r),
    rawFd_handle_pending (fd + 2 ^ 32) hbit none,
    toSigned32_add_two_pow hfd]
  cases r <;> rfl

theorem pending_close_reclaims_fd_iff_failure_witness :
    (3 : Nat) < 2 ^ 31
    ∧ RawFdCancellation.closedOnDispatch
        (RawFdCancellation.new ((3 : Nat) : Int) true) (.error 9)
        = [((3 : Nat) : Int)] :=
  ⟨by norm_num, pending_close_reclaims_fd_iff_failure 3 (by norm_num) (.error 9)⟩

/-- C8: if the prepare callback runs (leaving the submission's state at
`Lost`, set before the completion address is written into the entry's
user-data) but the driver never hands the completion token back, the
state after `try_prepare` is `Lost`, and the `Lost` arm of every
subsequent poll panics ("Submission future in a bad state; driver is
faulty") rather than continuing or silently leaking. -/
theorem lost_state_poll_panics :
    Submission.tryPrepareState true false = SubState.lost
    ∧ Submission.pollArm SubState.lost = PollArm.panicLost
    ∧ PollArm.panics (Submission.pollArm SubState.lost) = true
    ∧ Submission.prepareActions.indexOf .setStateLost
        < Submission.prepareActions.indexOf .writeUserData := by decide

/-- C9, counterexample: at position 0, capacity-used 5 and amount
n = 2^32 (representable in usize on a 64-bit target), `consume` leaves
the position at 0 — `amt as u32` truncates 2^32 to 0 — whereas the claim
demands min(0 + 2^32, 5) = 5. -/
theorem consume_truncates_large_amt :
    Buffer.consume 0 5 (2 ^ 32) = 0
    ∧ min (0 + 2 ^ 32) 5 = 5
    ∧ (0 : Nat) ≠ 5 := by decide

/-- C9, amended: for every buffer with position ≤ capacity-used and every
amount n with position + n < 2^32 (so that the truncation and wrap of the
u32 arithmetic cannot occur), consume(n) sets the position to
min(position + n, capacity-used); and for every amount a whatsoever the
new position never exceeds capacity-used. -/
theorem consume_saturates_amended (pos cap amt a : Nat) (_hpos : pos ≤ cap)
    (hamt : pos + amt < 2 ^ 32) :
    Buffer.consume pos cap amt = min (pos + amt) cap
    ∧ Buffer.consume pos cap a ≤ cap := by
  have h1 : amt % 2 ^ 32 = amt := Nat.mod_eq_of_lt (by omega)
  have h2 : (pos + amt) % 2 ^ 32 = pos + amt := Nat.mod_eq_of_lt hamt
  refine ⟨?_, ?_⟩
  · unfold Buffer.consume
    rw [h1, h2]
  · unfold Buffer.consume
    exact Nat.min_le_right _ _

theorem consume_saturates_amended_witness :
    Buffer.consume 1 3 1 = min (1 + 1) 3
    ∧ Buffer.consume 1 3 (2 ^ 32 + 7) ≤ 3 :=
  consume_saturates_amended 1 3 1 (2 ^ 32 + 7) (by norm_num) (by norm_num)

/-- C10: if the event's prepare panics while filling a reserved SQ entry
— whatever partial contents it leaves behind — the SubmissionCleaner
guard resets the entry to a no-op with user-data 0 during unwinding, so
the kernel observes neither a partially prepared entry nor a dangling
completion-cell address in that slot. -/
theorem prepare_panic_resets_sqe
    (fill : SQE → Except SQE SQE) (sqe part : SQE) (addr : Nat)
    (h : fill sqe = .error part) :
    guardedPrepare fill sqe addr = { opcode := IORING_OP_NOP, userData := 0 }
    ∧ (guardedPrepare fill sqe addr).userData = 0 := by
  simp [guardedPrepare, h, SubmissionCleaner.drop]

theorem prepare_panic_resets_sqe_witness :
    guardedPrepare (fun _ => .error ⟨22, 77⟩) ⟨0, 0⟩ 99
      = { opcode := IORING_OP_NOP, userData := 0 }
    ∧ (guardedPrepare (fun _ => .error ⟨22, 77⟩) ⟨0, 0⟩ 99).userData = 0 :=
  prepare_panic_resets_sqe (fun _ => .error ⟨22, 77⟩) ⟨0, 0⟩ ⟨22, 77⟩ 99 rfl

end Ringbahn
